import Mathlib

/-!
Verification of the point-sampling and particle-placement pipeline of the
3DTypeShaper repository (files `src/js/svg/SVGPointSampler.js` and the main
logic file).  JavaScript numbers are modelled as exact rationals (`ℚ`); a
possibly-NaN JavaScript number is modelled as `Option ℚ` with `none` playing
the role of `NaN`.  Browser capabilities that are external to the repository
(canvas text rasterization, SVG path-length queries, the camera projection,
`Math.sin`/`Math.cos`/`Math.random`) enter the model as explicit inputs, as
suggested by the spec's "Rasterizer / PathGeometry capability interface"
design note.
-/

/-- A 2D sample point `{x, y}` as produced by the SVG samplers. -/
structure Pt where
  x : ℚ
  y : ℚ
deriving DecidableEq, Repr

/-- A 3D point `{x, y, z}` in the shared output coordinate system. -/
structure Pt3 where
  x : ℚ
  y : ℚ
  z : ℚ
deriving DecidableEq, Repr

namespace SVGCoordinateNormalizer

/-- The record `{minX, minY, width, height}` of an SVG view box. -/
structure ViewBox where
  minX : ℚ
  minY : ℚ
  width : ℚ
  height : ℚ
deriving DecidableEq, Repr

/-- The record `{width, height}` of the output canvas. -/
structure CanvasSize where
  width : ℚ
  height : ℚ
deriving DecidableEq, Repr

/-- The `options` argument of `SVGCoordinateNormalizer.normalize`
(`fitMode`, `padding`, `offsetX`, `offsetY`). -/
structure NormOptions where
  fitMode : String
  padding : ℚ
  offsetX : ℚ
  offsetY : ℚ
deriving DecidableEq, Repr

/-- Model of `SVGCoordinateNormalizer.normalize` (SVGPointSampler.js, lines 361-423):
map SVG-space points into the canvas coordinate system.  Decimal constants of
the source are written as exact rationals. -/
def normalize (points : List Pt) (svgViewBox : ViewBox) (canvasSize : CanvasSize)
    (options : NormOptions) : List Pt3 :=
  if points.length = 0 then [] else
  -- effective canvas area (with padding)
  let effectiveWidth := canvasSize.width * (1 - options.padding * 2)
  let effectiveHeight := canvasSize.height * (1 - options.padding * 2)
  -- scale based on fit mode (the `default` switch branch yields unit scale)
  let scaleXY : ℚ × ℚ :=
    if options.fitMode = "contain" then
      let containScale := min (effectiveWidth / svgViewBox.width)
        (effectiveHeight / svgViewBox.height)
      (containScale, containScale)
    else if options.fitMode = "cover" then
      let coverScale := max (effectiveWidth / svgViewBox.width)
        (effectiveHeight / svgViewBox.height)
      (coverScale, coverScale)
    else if options.fitMode = "stretch" then
      (effectiveWidth / svgViewBox.width, effectiveHeight / svgViewBox.height)
    else (1, 1)
  -- SVG center in SVG coordinates
  let svgCenterX := svgViewBox.minX + svgViewBox.width / 2
  let svgCenterY := svgViewBox.minY + svgViewBox.height / 2
  -- offset in pixels (percentage of canvas)
  let offsetPxX := (options.offsetX / 100) * canvasSize.width
  let offsetPxY := (options.offsetY / 100) * canvasSize.height
  points.map (fun point =>
    let x := (point.x - svgCenterX) * scaleXY.1
    let y := (point.y - svgCenterY) * scaleXY.2
    -- flip Y axis, then apply offset
    { x := x + offsetPxX, y := -y + offsetPxY, z := 0 })

end SVGCoordinateNormalizer

namespace Hover

/-- Model of `getHoverScale3D` (main logic file, lines 522-559).  The source projects
the 3D point through the active camera and measures the screen-space distance
to the mouse; camera projection and `Math.sqrt` belong to the external
renderer/math library, so the embedding takes the resulting screen-space
`distance` as an input, exactly as the spec's HoverField contract
(`scaleAt(pointX, pointY, cursor, radius, intensity)`) describes it.
`mouseSet` models `mouseX !== null && mouseY !== null`. -/
def getHoverScale3D (hoverEffectEnabled mouseSet : Bool) (distance hoverRadius
    hoverIntensity : ℚ) : ℚ :=
  if hoverEffectEnabled = false ∨ mouseSet = false then 1 else
  if hoverRadius ≤ distance then 1 else
  let normalizedDistance := distance / hoverRadius
  let scale :=
    if 1 ≤ hoverIntensity then
      1 + (hoverIntensity - 1) * (1 - normalizedDistance)
    else
      let shrinkAmount := |hoverIntensity|
      let minScale := max (1/10) (1 / (shrinkAmount + 1))
      1 - (1 - minScale) * (1 - normalizedDistance)
  max (1/10) scale

end Hover

namespace SVGShapeParser

/-- JavaScript `String.prototype.trim`: strip whitespace at both ends. -/
def jsTrim (s : String) : String :=
  String.mk
    (((s.data.dropWhile Char.isWhitespace).reverse.dropWhile
      Char.isWhitespace).reverse)

/-- JavaScript `String.prototype.toLowerCase` (ASCII suffices here). -/
def jsToLower (s : String) : String :=
  String.mk (s.data.map Char.toLower)

/-- Value of a list of decimal digit characters. -/
def digitsVal (l : List Char) : ℕ :=
  l.foldl (fun n c => n * 10 + (c.toNat - 48)) 0

/-- Parse an unsigned decimal numeral `digits[.digits]` (the whole character
list must be consumed). -/
def parseUnsigned (chars : List Char) : Option ℚ :=
  let intPart := chars.takeWhile Char.isDigit
  let rest := chars.dropWhile Char.isDigit
  match rest with
  | [] => if intPart.isEmpty then none else some ((digitsVal intPart : ℕ) : ℚ)
  | '.' :: frac =>
    if frac.all Char.isDigit ∧ 0 < intPart.length + frac.length then
      some (((digitsVal intPart : ℕ) : ℚ) +
        ((digitsVal frac : ℕ) : ℚ) / (10 ^ frac.length))
    else none
  | _ => none

/-- Model of `parseFloat(getAttribute(name))`: `none` models `NaN`, which results both
from a missing attribute (`parseFloat(null)`) and from a non-numeric value.
JavaScript's `parseFloat` takes the longest numeric prefix; the model parses
the whole (trimmed) string, which agrees with it on the plain numerals that
appear in attribute values — no claim below depends on the difference. -/
def parseFloatQ : Option String → Option ℚ
  | none => none
  | some s =>
    match (jsTrim s).data with
    | '-' :: rest => (parseUnsigned rest).map (fun q => -q)
    | '+' :: rest => parseUnsigned rest
    | rest => parseUnsigned rest

/-- JavaScript `v || dflt` on a possibly-NaN number: `NaN` and `0` are falsy. -/
def jsOr (v : Option ℚ) (dflt : ℚ) : ℚ :=
  match v with
  | some q => if q = 0 then dflt else q
  | none => dflt

/-- Addition on possibly-NaN numbers (`NaN` propagates). -/
def jsAdd : Option ℚ → Option ℚ → Option ℚ
  | some a, some b => some (a + b)
  | _, _ => none

/-- Subtraction on possibly-NaN numbers (`NaN` propagates). -/
def jsSub : Option ℚ → Option ℚ → Option ℚ
  | some a, some b => some (a - b)
  | _, _ => none

/-- Rendering of a number into a template string.  `NaN` prints as `"NaN"`.
JavaScript prints non-integral numbers in decimal whereas `ℚ`'s `toString`
uses `num/den`; the two agree on integers, and no claim below depends on the
digits of a rendered number — only on whether a path string is produced at
all, and on whether `"NaN"` occurs in it. -/
def numToString : Option ℚ → String
  | none => "NaN"
  | some q => toString q

/-- Splitting on a regular expression `[seps]+` as JavaScript `String.split` does it:
separator *runs* delimit the tokens, and a leading or trailing run produces a
leading or trailing empty token.  Fuel-driven recursion; `fuel ≥ length`
always holds, so the fuel-exhausted branch is never taken. -/
def splitRunsAux (sep : Char → Bool) : ℕ → List Char → List Char → List String
  | _, [], acc => [String.mk acc.reverse]
  | 0, _ :: _, acc => [String.mk acc.reverse]
  | fuel + 1, c :: rest, acc =>
    if sep c then
      String.mk acc.reverse :: splitRunsAux sep fuel (rest.dropWhile sep) []
    else
      splitRunsAux sep fuel rest (c :: acc)

/-- JavaScript `s.split(/[\s,]+/)`-style splitting (see `splitRunsAux`). -/
def splitRuns (s : String) (sep : Char → Bool) : List String :=
  splitRunsAux sep s.data.length s.data []

/-- A whitespace-or-comma separator character, as in the `[\s,]+` patterns. -/
def wsComma (c : Char) : Bool :=
  c.isWhitespace || c = ','

/-- An SVG DOM element: its tag name, its `getAttribute` function, and the
(nonempty) `transform` attributes of its proper ancestors below the `svg`
root, outermost first, as accumulated by `getComputedTransform`'s walk up
`parentElement`. -/
structure SVGElement where
  tagName : String
  attr : String → Option String
  ancestorTransforms : List String

/-- Model of `getComputedTransform` (SVGPointSampler.js, lines 166-180): the ancestor
transforms, outermost first, followed by the element's own (skipped when
missing or empty, since `if (transform)` is a truthiness test), joined by
spaces. -/
def getComputedTransform (element : SVGElement) : String :=
  String.intercalate " "
    (element.ancestorTransforms ++
      (match element.attr "transform" with
       | some t => if t = "" then [] else [t]
       | none => []))

/-- Model of `rectToPath` (SVGPointSampler.js, lines 95-108).  `x`, `y`, `rx` default
to `0` and `ry` to `rx` through `||` fallbacks; `width` and `height` have no
fallback, so a missing attribute leaves them `NaN`. -/
def rectToPath (rect : SVGElement) : Option String :=
  let x := jsOr (parseFloatQ (rect.attr "x")) 0
  let y := jsOr (parseFloatQ (rect.attr "y")) 0
  let w := parseFloatQ (rect.attr "width")
  let h := parseFloatQ (rect.attr "height")
  let rx := jsOr (parseFloatQ (rect.attr "rx")) 0
  let ry := jsOr (parseFloatQ (rect.attr "ry")) rx
  if rx = 0 ∧ ry = 0 then
    some ("M" ++ numToString (some x) ++ "," ++ numToString (some y) ++
      " L" ++ numToString (jsAdd (some x) w) ++ "," ++ numToString (some y) ++
      " L" ++ numToString (jsAdd (some x) w) ++ "," ++
      numToString (jsAdd (some y) h) ++
      " L" ++ numToString (some x) ++ "," ++ numToString (jsAdd (some y) h) ++
      " Z")
  else
    some ("M" ++ numToString (some (x + rx)) ++ "," ++ numToString (some y) ++
      " L" ++ numToString (jsSub (jsAdd (some x) w) (some rx)) ++ "," ++
      numToString (some y) ++
      " Q" ++ numToString (jsAdd (some x) w) ++ "," ++ numToString (some y) ++
      " " ++ numToString (jsAdd (some x) w) ++ "," ++
      numToString (some (y + ry)) ++
      " L" ++ numToString (jsAdd (some x) w) ++ "," ++
      numToString (jsSub (jsAdd (some y) h) (some ry)) ++
      " Q" ++ numToString (jsAdd (some x) w) ++ "," ++
      numToString (jsAdd (some y) h) ++
      " " ++ numToString (jsSub (jsAdd (some x) w) (some rx)) ++ "," ++
      numToString (jsAdd (some y) h) ++
      " L" ++ numToString (some (x + rx)) ++ "," ++
      numToString (jsAdd (some y) h) ++
      " Q" ++ numToString (some x) ++ "," ++ numToString (jsAdd (some y) h) ++
      " " ++ numToString (some x) ++ "," ++
      numToString (jsSub (jsAdd (some y) h) (some ry)) ++
      " L" ++ numToString (some x) ++ "," ++ numToString (some (y + ry)) ++
      " Q" ++ numToString (some x) ++ "," ++ numToString (some y) ++
      " " ++ numToString (some (x + rx)) ++ "," ++ numToString (some y) ++
      " Z")

/-- Model of `circleToPath` (SVGPointSampler.js, lines 110-117): `cx`, `cy` default to
`0`; `r` has no fallback, so a missing `r` stays `NaN`. -/
def circleToPath (circle : SVGElement) : Option String :=
  let cx := jsOr (parseFloatQ (circle.attr "cx")) 0
  let cy := jsOr (parseFloatQ (circle.attr "cy")) 0
  let r := parseFloatQ (circle.attr "r")
  some ("M" ++ numToString (jsSub (some cx) r) ++ "," ++ numToString (some cy) ++
    " A" ++ numToString r ++ "," ++ numToString r ++ " 0 1,0 " ++
    numToString (jsAdd (some cx) r) ++ "," ++ numToString (some cy) ++
    " A" ++ numToString r ++ "," ++ numToString r ++ " 0 1,0 " ++
    numToString (jsSub (some cx) r) ++ "," ++ numToString (some cy))

/-- Model of `ellipseToPath` (SVGPointSampler.js, lines 119-126): `cx`, `cy` default
to `0`; `rx`, `ry` have no fallback. -/
def ellipseToPath (ellipse : SVGElement) : Option String :=
  let cx := jsOr (parseFloatQ (ellipse.attr "cx")) 0
  let cy := jsOr (parseFloatQ (ellipse.attr "cy")) 0
  let rx := parseFloatQ (ellipse.attr "rx")
  let ry := parseFloatQ (ellipse.attr "ry")
  some ("M" ++ numToString (jsSub (some cx) rx) ++ "," ++
    numToString (some cy) ++
    " A" ++ numToString rx ++ "," ++ numToString ry ++ " 0 1,0 " ++
    numToString (jsAdd (some cx) rx) ++ "," ++ numToString (some cy) ++
    " A" ++ numToString rx ++ "," ++ numToString ry ++ " 0 1,0 " ++
    numToString (jsSub (some cx) rx) ++ "," ++ numToString (some cy))

/-- The `for (i = 2; i += 2)` loop of `polygonToPath`: one ` L` segment per
remaining coordinate pair, an unpaired trailing token is dropped. -/
def polyPairs : List String → String
  | a :: b :: rest => " L" ++ a ++ "," ++ b ++ polyPairs rest
  | _ => ""

/-- Model of `polygonToPath` (SVGPointSampler.js, lines 128-142): returns `null` when
the `points` attribute is missing/empty (truthiness test) or yields fewer
than 4 tokens. -/
def polygonToPath (element : SVGElement) (close : Bool) : Option String :=
  match element.attr "points" with
  | none => none
  | some pointsAttr =>
    if pointsAttr = "" then none else
    let points := splitRuns (jsTrim pointsAttr) wsComma
    if points.length < 4 then none else
    match points with
    | p0 :: p1 :: rest =>
      some ("M" ++ p0 ++ "," ++ p1 ++ polyPairs rest ++
        (if close then " Z" else ""))
    | _ => none

/-- Model of `lineToPath` (SVGPointSampler.js, lines 144-150): all four coordinates
default to `0`, so a line element always yields a path. -/
def lineToPath (line : SVGElement) : Option String :=
  let x1 := jsOr (parseFloatQ (line.attr "x1")) 0
  let y1 := jsOr (parseFloatQ (line.attr "y1")) 0
  let x2 := jsOr (parseFloatQ (line.attr "x2")) 0
  let y2 := jsOr (parseFloatQ (line.attr "y2")) 0
  some ("M" ++ numToString (some x1) ++ "," ++ numToString (some y1) ++
    " L" ++ numToString (some x2) ++ "," ++ numToString (some y2))

/-- Model of `elementToPath` (SVGPointSampler.js, lines 67-93). -/
def elementToPath (element : SVGElement) : Option String :=
  let tag := jsToLower element.tagName
  if tag = "path" then element.attr "d"
  else if tag = "rect" then rectToPath element
  else if tag = "circle" then circleToPath element
  else if tag = "ellipse" then ellipseToPath element
  else if tag = "polygon" then polygonToPath element true
  else if tag = "polyline" then polygonToPath element false
  else if tag = "line" then lineToPath element
  else none

/-- The `{d, transform, fill, stroke}` record pushed by `extractPaths`. -/
structure PathInfo where
  d : String
  transform : String
  fill : Bool
  stroke : Bool
deriving DecidableEq, Repr

/-- The parsed view box; `none` fields model `NaN`/`undefined` components. -/
structure RawViewBox where
  minX : Option ℚ
  minY : Option ℚ
  width : Option ℚ
  height : Option ℚ
deriving DecidableEq, Repr

/-- The `svg` root element: its `getAttribute` function and its drawable
descendant elements in document order (`querySelectorAll(tag)` returns the
subsequence of these with the given tag). -/
structure SVGRoot where
  attr : String → Option String
  elements : List SVGElement

/-- JavaScript `Number(v)` on a token from destructuring: a missing token
(`undefined`) and a non-numeric token give `NaN`; a whitespace-only token
gives `0`. -/
def jsNumber : Option String → Option ℚ
  | none => none
  | some s => if jsTrim s = "" then some 0 else parseFloatQ (some s)

/-- Model of `parseViewBox` (SVGPointSampler.js, lines 152-164): split the `viewBox`
attribute on `[\s,]+` and convert the first four tokens with `Number`; when
the attribute is missing (or empty — a truthiness test) fall back to a
0-origin box whose `width`/`height` come from the like-named attributes via
`|| 100`. -/
def parseViewBox (svg : SVGRoot) : RawViewBox :=
  match svg.attr "viewBox" with
  | some vb =>
    if vb = "" then
      { minX := some 0, minY := some 0,
        width := some (jsOr (parseFloatQ (svg.attr "width")) 100),
        height := some (jsOr (parseFloatQ (svg.attr "height")) 100) }
    else
      let parts := splitRuns vb wsComma
      { minX := jsNumber (parts.get? 0), minY := jsNumber (parts.get? 1),
        width := jsNumber (parts.get? 2), height := jsNumber (parts.get? 3) }
  | none =>
    { minX := some 0, minY := some 0,
      width := some (jsOr (parseFloatQ (svg.attr "width")) 100),
      height := some (jsOr (parseFloatQ (svg.attr "height")) 100) }

/-- The parse result `{paths, viewBox}` of `extractPaths`. -/
structure ParseResult where
  paths : List PathInfo
  viewBox : RawViewBox

/-- The list `this.supportedElements` in processing order (lines 9 and 47). -/
def supportedElements : List String :=
  ["path", "circle", "rect", "ellipse", "polygon", "polyline", "line"]

/-- Model of `extractPaths` (SVGPointSampler.js, lines 42-62): for each supported tag
in order, for each matching element in document order, convert it to path
data and keep it when the result is truthy (neither `null` nor the empty
string). -/
def extractPaths (svg : SVGRoot) : ParseResult :=
  let viewBox := parseViewBox svg
  let paths := supportedElements.flatMap (fun tagName =>
    (svg.elements.filter (fun e => e.tagName = tagName)).filterMap
      (fun element =>
        match elementToPath element with
        | some pathData =>
          if pathData = "" then none
          else some { d := pathData,
                      transform := getComputedTransform element,
                      fill := element.attr "fill" ≠ some "none",
                      stroke := element.attr "stroke" ≠ some "none" }
        | none => none))
  { paths := paths, viewBox := viewBox }

end SVGShapeParser

namespace SVGPointSampler

/-- Squared distance `dx*dx + dy*dy` as computed inside `removeOverlapping`. -/
def distSq (point existing : Pt) : ℚ :=
  (point.x - existing.x) * (point.x - existing.x) +
  (point.y - existing.y) * (point.y - existing.y)

/-- The inner `for existing of result` loop of `removeOverlapping`: is the
candidate point within `minDistSq` of an already-retained point? -/
def tooClose (result : List Pt) (point : Pt) (minDistSq : ℚ) : Bool :=
  result.any (fun existing => distSq point existing < minDistSq)

/-- The `points.forEach` loop of `removeOverlapping`, with the accumulated
`result` array made explicit. -/
def removeOverlappingAux (minDistSq : ℚ) : List Pt → List Pt → List Pt
  | result, [] => result
  | result, point :: rest =>
    if tooClose result point minDistSq then
      removeOverlappingAux minDistSq result rest
    else
      removeOverlappingAux minDistSq (result ++ [point]) rest

/-- Model of `SVGPointSampler.removeOverlapping` (SVGPointSampler.js, lines 323-343):
greedily drop points whose squared distance to an already-retained point is
below `minDistance²`.  `sampleAllPaths` (line 314) calls it with
`minDistance = spacing / 2`. -/
def removeOverlapping (points : List Pt) (minDistance : ℚ) : List Pt :=
  removeOverlappingAux (minDistance * minDistance) [] points

end SVGPointSampler

namespace RasterSampler

/-- The pixel positions visited by a loop `for (v = 0; v < size; v += step)`
of `getTextPoints`, each recorded as `Math.floor(v)`.  A natural `i`
satisfies `i * step < size` exactly when `i < ⌈size / step⌉` (for
`0 < step`), which `gridPositions_mem` below proves, so the list enumerates
precisely the loop's iterations in order. -/
def gridPositions (size : ℕ) (step : ℚ) : List ℕ :=
  (List.range (Nat.ceil ((size : ℚ) / step))).map
    (fun i : ℕ => Nat.floor ((i : ℚ) * step))

/-- The pixel-scanning part of `getTextPoints` (main logic file, lines
370-397).  Rendering the text with `ctx.fillText` and reading it back with
`getImageData` are browser canvas capabilities external to the repository
(the spec's "Rasterizer" capability interface), so the embedding takes the
resulting alpha channel `alphaAt px py` as an input and models the grid scan,
the alpha test `alpha > 128` and the coordinate conversion
`(px - width/2, height/2 - py, 0)` from the source. -/
def getTextPoints (alphaAt : ℕ → ℕ → ℕ) (width height : ℕ) (step : ℚ) :
    List Pt3 :=
  (gridPositions height step).flatMap (fun py =>
    (gridPositions width step).filterMap (fun px =>
      if px < width ∧ py < height ∧ 128 < alphaAt px py then
        some { x := (px : ℚ) - (width : ℚ) / 2,
               y := (height : ℚ) / 2 - (py : ℚ), z := 0 }
      else none))

end RasterSampler

namespace AutoMotion

/-- The persisted auto-motion state mutated by `getAutoPosition`
(the globals `randomTarget`, `randomCurrent`, `randomLastTime`,
`randomInitialized`, `traceIndex` of the main logic file, lines 73-80). -/
structure AutoState where
  randomTarget : ℚ × ℚ
  randomCurrent : ℚ × ℚ
  randomLastTime : ℚ
  randomInitialized : Bool
  traceIndex : ℕ
deriving DecidableEq, Repr

/-- The initial values of the auto-motion globals. -/
def initialState : AutoState :=
  { randomTarget := (0, 0), randomCurrent := (0, 0), randomLastTime := 0,
    randomInitialized := false, traceIndex := 0 }

/-- The environment read by `getAutoPosition`: the canvas, the relevant
`textData` fields, the values of the external math library
(`Math.cos t`, `Math.sin t`, `Math.sin (2t)` at the scaled time
`t = time * autoSpeed * 0.0003`, and the `Math.random()` draws in call
order), and the `cachedPoints` global (`none` models `null`). -/
structure AutoEnv where
  canvasWidth : ℚ
  canvasHeight : ℚ
  autoSpeed : ℚ
  autoSize : ℚ
  cosT : ℚ
  sinT : ℚ
  sin2T : ℚ
  rand : ℕ → ℚ
  cachedPoints : Option (List Pt3)

/-- Model of `getAutoPosition` (main logic file, lines 562-639), as a function of the
mutable auto-motion state, returning the position together with the updated
state.  Decimal constants are exact rationals; `Math.random()` draws are
read from `env.rand` in call order (the initialization branch consumes draws
0 and 1, so a retarget in the same call consumes draws 2 and 3). -/
def getAutoPosition (time : ℚ) (pattern : String) (env : AutoEnv)
    (st : AutoState) : (ℚ × ℚ) × AutoState :=
  let centerX := env.canvasWidth / 2
  let centerY := env.canvasHeight / 2
  let sizeMultiplier := env.autoSize * (1/10)
  if pattern = "sine" then
    ((centerX + env.sinT * (env.canvasWidth * (35/100) * sizeMultiplier),
      centerY + env.sin2T * (50 * sizeMultiplier)), st)
  else if pattern = "infinity" then
    ((centerX + env.sinT * (env.canvasWidth * (3/10) * sizeMultiplier),
      centerY + env.sin2T * (env.canvasHeight * (2/10) * sizeMultiplier)), st)
  else if pattern = "circle" then
    ((centerX + env.cosT * (env.canvasWidth * (3/10) * sizeMultiplier),
      centerY + env.sinT * (env.canvasHeight * (25/100) * sizeMultiplier)), st)
  else if pattern = "random" then
    let rangeX := env.canvasWidth * (4/10) * sizeMultiplier
    let rangeY := env.canvasHeight * (35/100) * sizeMultiplier
    let st1 :=
      if st.randomInitialized then st else
        { st with
          randomCurrent := (centerX, centerY),
          randomTarget := (centerX + (env.rand 0 * 2 - 1) * rangeX,
                           centerY + (env.rand 1 * 2 - 1) * rangeY),
          randomInitialized := true }
    let k := if st.randomInitialized then 0 else 2
    let interval := 3000 / env.autoSpeed
    let st2 :=
      if interval < time - st1.randomLastTime then
        { st1 with
          randomTarget := (centerX + (env.rand k * 2 - 1) * rangeX,
                           centerY + (env.rand (k + 1) * 2 - 1) * rangeY),
          randomLastTime := time }
      else st1
    let easeSpeed := (2/100) + env.autoSpeed * (8/1000)
    let current :=
      (st2.randomCurrent.1 + (st2.randomTarget.1 - st2.randomCurrent.1) * easeSpeed,
       st2.randomCurrent.2 + (st2.randomTarget.2 - st2.randomCurrent.2) * easeSpeed)
    (current, { st2 with randomCurrent := current })
  else if pattern = "trace" then
    match env.cachedPoints with
    | some pts =>
      if 0 < pts.length then
        let pointsPerFrame := max 1 (Int.toNat ⌊env.autoSpeed * 2⌋)
        let newIndex := (st.traceIndex + pointsPerFrame) % pts.length
        let point := pts.getD newIndex { x := 0, y := 0, z := 0 }
        ((point.x + env.canvasWidth / 2, env.canvasHeight / 2 - point.y),
         { st with traceIndex := newIndex })
      else ((centerX, centerY), st)
    | none => ((centerX, centerY), st)
  else ((centerX, centerY), st)

end AutoMotion

/-! ## Supporting lemmas -/

/-- Justification of the closed-form grid enumeration: for a positive step,
the recorded pixel positions are exactly the floors of `i * step` over the
naturals `i` with `i * step < size`, i.e. the iterations of
`for (v = 0; v < size; v += step)`. -/
theorem gridPositions_mem (size : ℕ) (step : ℚ) (hstep : 0 < step) (p : ℕ) :
    p ∈ RasterSampler.gridPositions size step ↔
      ∃ i : ℕ, (i : ℚ) * step < (size : ℚ) ∧ p = Nat.floor ((i : ℚ) * step) := by
  unfold RasterSampler.gridPositions
  constructor
  · intro hp
    obtain ⟨i, hi, heq⟩ := List.mem_map.mp hp
    rw [List.mem_range, Nat.lt_ceil] at hi
    exact ⟨i, (lt_div_iff₀ hstep).mp hi, heq.symm⟩
  · rintro ⟨i, hi, rfl⟩
    refine List.mem_map.mpr ⟨i, ?_, rfl⟩
    rw [List.mem_range, Nat.lt_ceil]
    exact (lt_div_iff₀ hstep).mpr hi

/-- The squared distance `distSq` is symmetric. -/
theorem distSq_comm (a b : Pt) :
    SVGPointSampler.distSq a b = SVGPointSampler.distSq b a := by
  unfold SVGPointSampler.distSq
  ring

/-- The `forEach` loop only ever appends to `result`: its output is the
incoming accumulator followed by an order-preserving selection of the
remaining input. -/
theorem removeOverlappingAux_structure (m : ℚ) (rest : List Pt) :
    ∀ acc : List Pt, ∃ t, SVGPointSampler.removeOverlappingAux m acc rest =
      acc ++ t ∧ t.Sublist rest := by
  induction rest with
  | nil => exact fun acc => ⟨[], by simp [SVGPointSampler.removeOverlappingAux]⟩
  | cons p rest ih =>
    intro acc
    by_cases h : SVGPointSampler.tooClose acc p m
    · obtain ⟨t, ht, hs⟩ := ih acc
      exact ⟨t, by simp [SVGPointSampler.removeOverlappingAux, h, ht],
        hs.cons p⟩
    · obtain ⟨t, ht, hs⟩ := ih (acc ++ [p])
      refine ⟨p :: t, ?_, hs.cons₂ p⟩
      simp [SVGPointSampler.removeOverlappingAux, h, ht]

/-- The loop preserves pairwise separation of the accumulator: every newly
retained point was checked against all previously retained ones. -/
theorem removeOverlappingAux_pairwise (m : ℚ) (rest : List Pt) :
    ∀ acc : List Pt,
      acc.Pairwise (fun a b => m ≤ SVGPointSampler.distSq a b) →
      (SVGPointSampler.removeOverlappingAux m acc rest).Pairwise
        (fun a b => m ≤ SVGPointSampler.distSq a b) := by
  induction rest with
  | nil =>
    intro acc hacc
    simpa [SVGPointSampler.removeOverlappingAux] using hacc
  | cons p rest ih =>
    intro acc hacc
    by_cases h : SVGPointSampler.tooClose acc p m
    · simpa [SVGPointSampler.removeOverlappingAux, h] using ih acc hacc
    · have hfar : ∀ e ∈ acc, m ≤ SVGPointSampler.distSq e p := by
        intro e he
        have h2 : ¬ (SVGPointSampler.distSq p e < m) := by
          intro hlt
          exact h (by simp only [SVGPointSampler.tooClose, List.any_eq_true,
            decide_eq_true_eq]; exact ⟨e, he, hlt⟩)
        rw [distSq_comm]
        exact not_lt.mp h2
      have hacc2 : (acc ++ [p]).Pairwise
          (fun a b => m ≤ SVGPointSampler.distSq a b) := by
        rw [List.pairwise_append]
        exact ⟨hacc, by simp, by simpa using hfar⟩
      simpa [SVGPointSampler.removeOverlappingAux, h] using ih (acc ++ [p]) hacc2

/-- Every input point either survives the loop or conflicts with a retained
point (within squared distance `m`). -/
theorem removeOverlappingAux_cover (m : ℚ) (rest : List Pt) :
    ∀ acc : List Pt, ∀ x ∈ rest,
      x ∈ SVGPointSampler.removeOverlappingAux m acc rest ∨
      ∃ q ∈ SVGPointSampler.removeOverlappingAux m acc rest,
        SVGPointSampler.distSq x q < m := by
  induction rest with
  | nil => simp
  | cons p rest ih =>
    intro acc x hx
    by_cases h : SVGPointSampler.tooClose acc p m
    · rcases List.mem_cons.mp hx with rfl | hx'
      · obtain ⟨e, he, hlt⟩ : ∃ e ∈ acc, SVGPointSampler.distSq x e < m := by
          simpa only [SVGPointSampler.tooClose, List.any_eq_true,
            decide_eq_true_eq] using h
        obtain ⟨t, ht, -⟩ := removeOverlappingAux_structure m rest acc
        right
        refine ⟨e, ?_, hlt⟩
        simp [SVGPointSampler.removeOverlappingAux, h, ht, he]
      · simpa [SVGPointSampler.removeOverlappingAux, h] using ih acc x hx'
    · rcases List.mem_cons.mp hx with rfl | hx'
      · obtain ⟨t, ht, -⟩ := removeOverlappingAux_structure m rest (acc ++ [x])
        left
        simp [SVGPointSampler.removeOverlappingAux, h, ht]
      · simpa [SVGPointSampler.removeOverlappingAux, h] using
          ih (acc ++ [p]) x hx'

/-- The function `removeOverlapping` always retains the first input point: the greedy scan
resolves conflicts in favour of the first-seen point. -/
theorem removeOverlapping_head (points : List Pt) (d : ℚ) :
    (SVGPointSampler.removeOverlapping points d).head? = points.head? := by
  cases points with
  | nil => rfl
  | cons p rest =>
    obtain ⟨t, ht, -⟩ := removeOverlappingAux_structure (d * d) rest [p]
    simp [SVGPointSampler.removeOverlapping, SVGPointSampler.removeOverlappingAux,
      SVGPointSampler.tooClose, ht]

/-! ## Claims -/

/-- Claim C7 (confirmed): for every hover intensity, every radius `> 0` and
every point, `getHoverScale3D` returns exactly `1` whenever the screen-space
distance from the point to the cursor is at least the radius (for any
enabled/mouse state — the source returns `1` even earlier when hover is
disabled or the mouse is unset). -/
theorem hoverScale_far_eq_one (enabled mouseSet : Bool)
    (distance hoverRadius hoverIntensity : ℚ) (hr : 0 < hoverRadius)
    (hd : hoverRadius ≤ distance) :
    Hover.getHoverScale3D enabled mouseSet distance hoverRadius
      hoverIntensity = 1 := by
  simp [Hover.getHoverScale3D, hd]

/-- Witness for **C7**: intensity 2, radius 100, distance 150. -/
theorem hoverScale_far_eq_one_witness :
    (0 : ℚ) < 100 ∧ (100 : ℚ) ≤ 150 ∧
      Hover.getHoverScale3D true true 150 100 2 = 1 :=
  ⟨by norm_num, by norm_num,
    hoverScale_far_eq_one true true 150 100 2 (by norm_num) (by norm_num)⟩

/-- Claim C9 (confirmed): in the `circle` pattern, whenever the external math
library reports `cos t = 1` and `sin t = 0` for the scaled time, the
generated position is exactly
`(centerX + 0.3 * canvasWidth * sizeMultiplier, centerY)` with
`sizeMultiplier = autoSize * 0.1`. -/
theorem autoPosition_circle_at_cos_one (time : ℚ) (env : AutoMotion.AutoEnv)
    (st : AutoMotion.AutoState) (hcos : env.cosT = 1) (hsin : env.sinT = 0) :
    (AutoMotion.getAutoPosition time "circle" env st).1 =
      (env.canvasWidth / 2 + (3/10) * env.canvasWidth * (env.autoSize * (1/10)),
       env.canvasHeight / 2) := by
  simp [AutoMotion.getAutoPosition, hcos, hsin, Prod.ext_iff]
  constructor <;> ring

/-- Witness for **C9**: an 800×600 canvas with `autoSize = 5` yields
`(400 + 0.3·800·0.5, 300) = (520, 300)`. -/
theorem autoPosition_circle_witness :
    (AutoMotion.getAutoPosition 0 "circle"
      { canvasWidth := 800, canvasHeight := 600, autoSpeed := 1, autoSize := 5,
        cosT := 1, sinT := 0, sin2T := 0, rand := fun _ => 0,
        cachedPoints := none } AutoMotion.initialState).1 = (520, 300) := by
  rw [autoPosition_circle_at_cos_one 0
    { canvasWidth := 800, canvasHeight := 600, autoSpeed := 1, autoSize := 5,
      cosT := 1, sinT := 0, sin2T := 0, rand := fun _ => 0,
      cachedPoints := none } AutoMotion.initialState rfl rfl]
  norm_num

/-- Claim C10 (confirmed): for any `fitMode` other than `contain`, `cover` and
`stretch`, `normalize` applies unit scale on both axes — every output point
is `(x − viewBoxCenterX + offsetPxX, −(y − viewBoxCenterY) + offsetPxY, 0)`. -/
theorem normalize_default_fitMode (points : List Pt)
    (vb : SVGCoordinateNormalizer.ViewBox)
    (cs : SVGCoordinateNormalizer.CanvasSize)
    (fitMode : String) (padding offsetX offsetY : ℚ)
    (h1 : fitMode ≠ "contain") (h2 : fitMode ≠ "cover")
    (h3 : fitMode ≠ "stretch") :
    SVGCoordinateNormalizer.normalize points vb cs
      ⟨fitMode, padding, offsetX, offsetY⟩ =
    points.map (fun p =>
      { x := p.x - (vb.minX + vb.width / 2) + (offsetX / 100) * cs.width,
        y := -(p.y - (vb.minY + vb.height / 2)) + (offsetY / 100) * cs.height,
        z := 0 }) := by
  rcases points with - | ⟨p, rest⟩
  · simp [SVGCoordinateNormalizer.normalize]
  · simp [SVGCoordinateNormalizer.normalize, h1, h2, h3]

/-- Witness for **C10**: `fitMode = "none"` on the point `(3,4)` with view
box `0 0 10 10`, canvas `100×100`, zero offsets. -/
theorem normalize_default_fitMode_witness :
    ("none" ≠ "contain" ∧ "none" ≠ "cover" ∧ "none" ≠ "stretch") ∧
    SVGCoordinateNormalizer.normalize [⟨3, 4⟩] ⟨0, 0, 10, 10⟩ ⟨100, 100⟩
      ⟨"none", 1/10, 0, 0⟩ = [⟨-2, 1, 0⟩] := by
  refine ⟨⟨by decide, by decide, by decide⟩, ?_⟩
  rw [normalize_default_fitMode [⟨3, 4⟩] ⟨0, 0, 10, 10⟩ ⟨100, 100⟩ "none"
    (1/10) 0 0 (by decide) (by decide) (by decide)]
  norm_num

/-- A `<rect/>` element carrying no attributes at all — in particular no
`width` and no `height`. -/
def rectNoSize : SVGShapeParser.SVGElement :=
  { tagName := "rect", attr := fun _ => none, ancestorTransforms := [] }

/-- An SVG document whose only drawable element is `rectNoSize`. -/
def svgRectNoSize : SVGShapeParser.SVGRoot :=
  { attr := fun _ => none, elements := [rectNoSize] }

/-- Claim C2 (code bug): the claim (and the spec, twice) says an element whose
required geometry attributes are missing is skipped silently and contributes
no PathDescriptor.  The code only guards `polygon`/`polyline` (missing
`points`) and `path` (missing `d`): for `rect`, `circle` and `ellipse`,
`parseFloat` of the missing attribute yields `NaN`, the template string is
built anyway, and the non-empty string passes the `if (pathData)` truthiness
test.  A rect with no `width`/`height` therefore contributes one
PathDescriptor whose data contains `NaN` coordinates. -/
theorem extractPaths_rect_missing_size_not_skipped :
    (SVGShapeParser.extractPaths svgRectNoSize).paths.map
      (fun p => p.d) = ["M0,0 LNaN,0 LNaN,NaN L0,NaN Z"] := rfl

/-- Claim C4 counterexample: a single scanned pixel whose alpha is exactly
`128`.  Its coverage `128/255` strictly exceeds 50% of the maximum alpha
value `255`, so the claim says it is retained — but the code's test is
`alpha > 128`, so the output is empty. -/
theorem getTextPoints_alpha128_dropped :
    RasterSampler.getTextPoints (fun _ _ => 128) 1 1 1 = [] ∧
    (0 : ℕ) ∈ RasterSampler.gridPositions 1 1 ∧
    (255 : ℚ) / 2 < 128 := by
  refine ⟨?_, ?_, by norm_num⟩
  · norm_num [RasterSampler.getTextPoints, RasterSampler.gridPositions]
  · norm_num [RasterSampler.gridPositions]

/-- Claim C4 (amended): a scanned pixel is retained by the raster sampler if
and only if its alpha value is strictly greater than `128` (not strictly
greater than half the maximum value `255`: a pixel with alpha exactly `128`
is dropped although its coverage exceeds 50%). -/
theorem getTextPoints_mem_iff (alphaAt : ℕ → ℕ → ℕ) (width height : ℕ)
    (step : ℚ) (p : Pt3) :
    p ∈ RasterSampler.getTextPoints alphaAt width height step ↔
      ∃ px ∈ RasterSampler.gridPositions width step,
        ∃ py ∈ RasterSampler.gridPositions height step,
          px < width ∧ py < height ∧ 128 < alphaAt px py ∧
          p = { x := (px : ℚ) - (width : ℚ) / 2,
                y := (height : ℚ) / 2 - (py : ℚ), z := 0 } := by
  unfold RasterSampler.getTextPoints
  rw [List.mem_flatMap]
  constructor
  · rintro ⟨py, hpy, hmem⟩
    obtain ⟨px, hpx, heq⟩ := List.mem_filterMap.mp hmem
    by_cases hc : px < width ∧ py < height ∧ 128 < alphaAt px py
    · rw [if_pos hc] at heq
      exact ⟨px, hpx, py, hpy, hc.1, hc.2.1, hc.2.2,
        (Option.some_inj.mp heq).symm⟩
    · rw [if_neg hc] at heq
      exact absurd heq (by simp)
  · rintro ⟨px, hpx, py, hpy, h1, h2, h3, rfl⟩
    refine ⟨py, hpy, List.mem_filterMap.mpr ⟨px, hpx, ?_⟩⟩
    rw [if_pos ⟨h1, h2, h3⟩]

/-- Claim C1 counterexample: the claim quantifies over *every* non-empty point
list, but `normalize` scales whatever points it is given; a point outside
the view box lands outside the padded canvas bounds.  With view box
`0 0 10 10`, canvas `100×100`, padding `0.1` (so effective size `80`), the
input point `(100, 0)` maps to `x = 760`, far outside the effective
half-width `40` — and even outside the full canvas width `100`. -/
theorem normalize_contain_counterexample :
    SVGCoordinateNormalizer.normalize [⟨100, 0⟩] ⟨0, 0, 10, 10⟩ ⟨100, 100⟩
      ⟨"contain", 1/10, 0, 0⟩ = [⟨760, 40, 0⟩] ∧
    ¬(|(760 : ℚ)| ≤ 100 * (1 - 2 * (1/10)) / 2) ∧
    ¬(|(760 : ℚ)| ≤ 100) := by
  refine ⟨?_, by norm_num, by norm_num⟩
  norm_num [SVGCoordinateNormalizer.normalize]

/-- Claim C1 (amended): in `contain` mode with zero offsets, padding at most
`1/2`, a positive-size view box and a non-negative canvas, *provided every
input point lies within the view box*, every output point lies within the
padded canvas bounds (`|x| ≤ canvasWidth·(1−2·padding)/2` and likewise for
`y`), and hence the output bounding box never exceeds
canvas dimensions × (1 − 2·padding) — stated pairwise:
`|q.x − r.x| ≤ canvasWidth·(1−2·padding)` for any two output points. -/
theorem normalize_contain_within_bounds (points : List Pt)
    (vb : SVGCoordinateNormalizer.ViewBox)
    (cs : SVGCoordinateNormalizer.CanvasSize) (padding : ℚ)
    (hvw : 0 < vb.width) (hvh : 0 < vb.height)
    (hcw : 0 ≤ cs.width) (hch : 0 ≤ cs.height) (hpad : padding ≤ 1/2)
    (hin : ∀ p ∈ points,
      vb.minX ≤ p.x ∧ p.x ≤ vb.minX + vb.width ∧
      vb.minY ≤ p.y ∧ p.y ≤ vb.minY + vb.height) :
    (∀ q ∈ SVGCoordinateNormalizer.normalize points vb cs
        ⟨"contain", padding, 0, 0⟩,
      |q.x| ≤ cs.width * (1 - 2 * padding) / 2 ∧
      |q.y| ≤ cs.height * (1 - 2 * padding) / 2) ∧
    (∀ q ∈ SVGCoordinateNormalizer.normalize points vb cs
        ⟨"contain", padding, 0, 0⟩,
      ∀ r ∈ SVGCoordinateNormalizer.normalize points vb cs
        ⟨"contain", padding, 0, 0⟩,
      |q.x - r.x| ≤ cs.width * (1 - 2 * padding) ∧
      |q.y - r.y| ≤ cs.height * (1 - 2 * padding)) := by
  have key : ∀ q ∈ SVGCoordinateNormalizer.normalize points vb cs
      ⟨"contain", padding, 0, 0⟩,
      |q.x| ≤ cs.width * (1 - 2 * padding) / 2 ∧
      |q.y| ≤ cs.height * (1 - 2 * padding) / 2 := by
    intro q hq
    by_cases hemp : points.length = 0
    · simp [SVGCoordinateNormalizer.normalize, hemp] at hq
    · simp [SVGCoordinateNormalizer.normalize, hemp] at hq
      obtain ⟨p, hp, rfl⟩ := hq
      obtain ⟨hx1, hx2, hy1, hy2⟩ := hin p hp
      set s := min (cs.width * (1 - padding * 2) / vb.width)
        (cs.height * (1 - padding * 2) / vb.height) with hs
      have heffW : 0 ≤ cs.width * (1 - padding * 2) := by nlinarith
      have heffH : 0 ≤ cs.height * (1 - padding * 2) := by nlinarith
      have hs0 : 0 ≤ s :=
        le_min (div_nonneg heffW hvw.le) (div_nonneg heffH hvh.le)
      have hsW : s * vb.width ≤ cs.width * (1 - padding * 2) :=
        (le_div_iff₀ hvw).mp (min_le_left _ _)
      have hsH : s * vb.height ≤ cs.height * (1 - padding * 2) :=
        (le_div_iff₀ hvh).mp (min_le_right _ _)
      have hxabs : |p.x - (vb.minX + vb.width / 2)| ≤ vb.width / 2 :=
        abs_le.mpr ⟨by linarith, by linarith⟩
      have hyabs : |p.y - (vb.minY + vb.height / 2)| ≤ vb.height / 2 :=
        abs_le.mpr ⟨by linarith, by linarith⟩
      constructor
      · show |(p.x - (vb.minX + vb.width / 2)) * s| ≤
          cs.width * (1 - 2 * padding) / 2
        rw [abs_mul, abs_of_nonneg hs0]
        have h1 : |p.x - (vb.minX + vb.width / 2)| * s ≤ vb.width / 2 * s :=
          mul_le_mul_of_nonneg_right hxabs hs0
        nlinarith
      · show |-((p.y - (vb.minY + vb.height / 2)) * s)| ≤
          cs.height * (1 - 2 * padding) / 2
        rw [abs_neg, abs_mul, abs_of_nonneg hs0]
        have h1 : |p.y - (vb.minY + vb.height / 2)| * s ≤ vb.height / 2 * s :=
          mul_le_mul_of_nonneg_right hyabs hs0
        nlinarith
  refine ⟨key, fun q hq r hr => ?_⟩
  obtain ⟨hqx, hqy⟩ := key q hq
  obtain ⟨hrx, hry⟩ := key r hr
  constructor
  · calc |q.x - r.x| ≤ |q.x| + |r.x| := abs_sub q.x r.x
      _ ≤ cs.width * (1 - 2 * padding) := by linarith
  · calc |q.y - r.y| ≤ |q.y| + |r.y| := abs_sub q.y r.y
      _ ≤ cs.height * (1 - 2 * padding) := by linarith

/-- Witness for the amended **C1**: points `(0,0)` and `(10,10)` inside view
box `0 0 10 10`, canvas `100×100`, padding `0.1`.  The first output point is
`(-40, 40, 0)`, within the padded half-extent `40`. -/
theorem normalize_contain_within_bounds_witness :
    (∀ p ∈ ([⟨0, 0⟩, ⟨10, 10⟩] : List Pt),
      (0 : ℚ) ≤ p.x ∧ p.x ≤ 0 + 10 ∧ (0 : ℚ) ≤ p.y ∧ p.y ≤ 0 + 10) ∧
    (⟨-40, 40, 0⟩ : Pt3) ∈ SVGCoordinateNormalizer.normalize
      [⟨0, 0⟩, ⟨10, 10⟩] ⟨0, 0, 10, 10⟩ ⟨100, 100⟩ ⟨"contain", 1/10, 0, 0⟩ ∧
    |(⟨-40, 40, 0⟩ : Pt3).x| ≤ 100 * (1 - 2 * (1/10)) / 2 ∧
    |(⟨-40, 40, 0⟩ : Pt3).y| ≤ 100 * (1 - 2 * (1/10)) / 2 := by
  have hin : ∀ p ∈ ([⟨0, 0⟩, ⟨10, 10⟩] : List Pt),
      (0 : ℚ) ≤ p.x ∧ p.x ≤ 0 + 10 ∧ (0 : ℚ) ≤ p.y ∧ p.y ≤ 0 + 10 := by
    intro p hp
    rcases List.mem_cons.mp hp with rfl | hp'
    · norm_num
    · rcases List.mem_cons.mp hp' with rfl | hp''
      · norm_num
      · simp at hp''
  have hmem : (⟨-40, 40, 0⟩ : Pt3) ∈ SVGCoordinateNormalizer.normalize
      [⟨0, 0⟩, ⟨10, 10⟩] ⟨0, 0, 10, 10⟩ ⟨100, 100⟩ ⟨"contain", 1/10, 0, 0⟩ := by
    norm_num [SVGCoordinateNormalizer.normalize]
  exact ⟨hin, hmem,
    (normalize_contain_within_bounds [⟨0, 0⟩, ⟨10, 10⟩] ⟨0, 0, 10, 10⟩
      ⟨100, 100⟩ (1/10) (by norm_num) (by norm_num) (by norm_num) (by norm_num)
      (by norm_num) hin).1 ⟨-40, 40, 0⟩ hmem⟩

/-- Claim C8 (confirmed): for a fixed intensity, radius and cursor, the hover
scale is monotonic in the screen-space distance — for `0 ≤ d1 ≤ d2 < radius`
the scale at `d1` is at least as far from `1` as the scale at `d2`, growing
(`≥ 1`) when intensity ≥ 1 and shrinking (`≤ 1`) when intensity < 1. -/
theorem hoverScale_monotone (d1 d2 r i : ℚ)
    (h0 : 0 ≤ d1) (h12 : d1 ≤ d2) (h2r : d2 < r) :
    |Hover.getHoverScale3D true true d2 r i - 1| ≤
      |Hover.getHoverScale3D true true d1 r i - 1| ∧
    (1 ≤ i → 1 ≤ Hover.getHoverScale3D true true d1 r i) ∧
    (i < 1 → Hover.getHoverScale3D true true d1 r i ≤ 1) := by
  have hd2 : 0 ≤ d2 := h0.trans h12
  have hr : 0 < r := lt_of_le_of_lt hd2 h2r
  have h1r : d1 < r := lt_of_le_of_lt h12 h2r
  have hu1a : d1 / r < 1 := (div_lt_one hr).mpr h1r
  have hu2a : d2 / r < 1 := (div_lt_one hr).mpr h2r
  have hu1b : 0 ≤ d1 / r := div_nonneg h0 hr.le
  have hu2b : 0 ≤ d2 / r := div_nonneg hd2 hr.le
  have hu12 : d1 / r ≤ d2 / r := by gcongr
  have hms1 : max (1/10) (1 / (|i| + 1)) ≤ 1 := by
    apply max_le (by norm_num)
    rw [div_le_one (by positivity)]
    have := abs_nonneg i
    linarith
  have hms0 : (1 : ℚ)/10 ≤ max (1/10) (1 / (|i| + 1)) := le_max_left _ _
  -- closed form inside the radius: the final `max (1/10, ·)` clamp is inert
  have key : ∀ d : ℚ, 0 ≤ d / r → d / r < 1 → d < r →
      Hover.getHoverScale3D true true d r i =
        if 1 ≤ i then 1 + (i - 1) * (1 - d / r)
        else 1 - (1 - max (1/10) (1 / (|i| + 1))) * (1 - d / r) := by
    intro d hdb hda hdr
    simp only [Hover.getHoverScale3D]
    rw [if_neg (by simp), if_neg (not_le.mpr hdr)]
    by_cases hi : 1 ≤ i
    · rw [if_pos hi]
      apply max_eq_right
      have hb : 0 ≤ (i - 1) * (1 - d / r) :=
        mul_nonneg (by linarith) (by linarith)
      linarith
    · rw [if_neg hi]
      apply max_eq_right
      have hb : (1 - max (1/10) (1 / (|i| + 1))) * (1 - d / r) ≤
          (1 - max (1/10) (1 / (|i| + 1))) * 1 :=
        mul_le_mul_of_nonneg_left (by linarith) (by linarith)
      linarith
  rw [key d1 hu1b hu1a h1r, key d2 hu2b hu2a h2r]
  by_cases hi : 1 ≤ i
  · rw [if_pos hi, if_pos hi]
    have him : 0 ≤ i - 1 := by linarith
    have hq1 : 0 ≤ (i - 1) * (1 - d1 / r) := mul_nonneg him (by linarith)
    have hq2 : 0 ≤ (i - 1) * (1 - d2 / r) := mul_nonneg him (by linarith)
    refine ⟨?_, fun _ => by linarith, fun hlt => absurd hi (not_le.mpr hlt)⟩
    have e1 : 1 + (i - 1) * (1 - d1 / r) - 1 = (i - 1) * (1 - d1 / r) := by ring
    have e2 : 1 + (i - 1) * (1 - d2 / r) - 1 = (i - 1) * (1 - d2 / r) := by ring
    rw [e1, e2, abs_of_nonneg hq1, abs_of_nonneg hq2]
    exact mul_le_mul_of_nonneg_left (by linarith) him
  · rw [if_neg hi, if_neg hi]
    have hm0 : 0 ≤ 1 - max (1/10) (1 / (|i| + 1)) := by linarith
    have hp1 : 0 ≤ (1 - max (1/10) (1 / (|i| + 1))) * (1 - d1 / r) :=
      mul_nonneg hm0 (by linarith)
    have hp2 : 0 ≤ (1 - max (1/10) (1 / (|i| + 1))) * (1 - d2 / r) :=
      mul_nonneg hm0 (by linarith)
    refine ⟨?_, fun hge => absurd hge hi, fun _ => by linarith⟩
    have e1 : 1 - (1 - max (1/10) (1 / (|i| + 1))) * (1 - d1 / r) - 1 =
        -((1 - max (1/10) (1 / (|i| + 1))) * (1 - d1 / r)) := by ring
    have e2 : 1 - (1 - max (1/10) (1 / (|i| + 1))) * (1 - d2 / r) - 1 =
        -((1 - max (1/10) (1 / (|i| + 1))) * (1 - d2 / r)) := by ring
    rw [e1, e2, abs_neg, abs_neg, abs_of_nonneg hp1, abs_of_nonneg hp2]
    exact mul_le_mul_of_nonneg_left (by linarith) hm0

/-- Witness for **C8**: intensity 2, radius 100, distances 0 and 50 — the
scale at distance 50 (namely 1.5) is no farther from 1 than the scale at
distance 0 (namely 2). -/
theorem hoverScale_monotone_witness :
    (0 : ℚ) ≤ 0 ∧ (0 : ℚ) ≤ 50 ∧ (50 : ℚ) < 100 ∧
    (|Hover.getHoverScale3D true true 50 100 2 - 1| ≤
      |Hover.getHoverScale3D true true 0 100 2 - 1| ∧
    ((1 : ℚ) ≤ 2 → 1 ≤ Hover.getHoverScale3D true true 0 100 2) ∧
    ((2 : ℚ) < 1 → Hover.getHoverScale3D true true 0 100 2 ≤ 1)) :=
  ⟨by norm_num, by norm_num, by norm_num,
    hoverScale_monotone 0 50 100 2 (by norm_num) (by norm_num) (by norm_num)⟩

/-- Claim C6 (confirmed): after `removeOverlapping` with threshold `s/2`
(as called by `sampleAllPaths`), (i) any two distinct retained points are at
squared distance at least `(s/2)²`, (ii) the retained points are an
order-preserving subsequence of the input, (iii) the first input point is
always retained (so when two input points conflict, the first-seen one
wins — two retained points never conflict by (i)), and (iv) every dropped
input point conflicts with some retained point. -/
theorem removeOverlapping_spec (points : List Pt) (s : ℚ) (hs : 0 < s) :
    (SVGPointSampler.removeOverlapping points (s/2)).Pairwise
      (fun a b => (s/2)^2 ≤ SVGPointSampler.distSq a b) ∧
    (SVGPointSampler.removeOverlapping points (s/2)).Sublist points ∧
    (SVGPointSampler.removeOverlapping points (s/2)).head? = points.head? ∧
    (∀ x ∈ points, x ∈ SVGPointSampler.removeOverlapping points (s/2) ∨
      ∃ q ∈ SVGPointSampler.removeOverlapping points (s/2),
        SVGPointSampler.distSq x q < (s/2)^2) := by
  have hsq : (s/2)^2 = (s/2) * (s/2) := sq (s/2)
  refine ⟨?_, ?_, removeOverlapping_head points (s/2), ?_⟩
  · rw [hsq]
    exact removeOverlappingAux_pairwise (s/2 * (s/2)) points [] List.Pairwise.nil
  · obtain ⟨t, ht, hsub⟩ :=
      removeOverlappingAux_structure (s/2 * (s/2)) points []
    rw [SVGPointSampler.removeOverlapping, ht]
    simpa using hsub
  · intro x hx
    rw [hsq]
    exact removeOverlappingAux_cover (s/2 * (s/2)) points [] x hx

/-- Witness for **C6**: spacing `s = 2` on `[(0,0), (1/2,0), (3,0)]` — the
middle point conflicts with the retained first point and is dropped. -/
theorem removeOverlapping_spec_witness :
    (0 : ℚ) < 2 ∧
    ((SVGPointSampler.removeOverlapping [⟨0, 0⟩, ⟨1/2, 0⟩, ⟨3, 0⟩]
        ((2 : ℚ)/2)).Pairwise
      (fun a b => ((2 : ℚ)/2)^2 ≤ SVGPointSampler.distSq a b) ∧
    (SVGPointSampler.removeOverlapping [⟨0, 0⟩, ⟨1/2, 0⟩, ⟨3, 0⟩]
      ((2 : ℚ)/2)).Sublist [⟨0, 0⟩, ⟨1/2, 0⟩, ⟨3, 0⟩] ∧
    (SVGPointSampler.removeOverlapping [⟨0, 0⟩, ⟨1/2, 0⟩, ⟨3, 0⟩]
      ((2 : ℚ)/2)).head? = ([⟨0, 0⟩, ⟨1/2, 0⟩, ⟨3, 0⟩] : List Pt).head? ∧
    (∀ x ∈ ([⟨0, 0⟩, ⟨1/2, 0⟩, ⟨3, 0⟩] : List Pt),
      x ∈ SVGPointSampler.removeOverlapping [⟨0, 0⟩, ⟨1/2, 0⟩, ⟨3, 0⟩]
        ((2 : ℚ)/2) ∨
      ∃ q ∈ SVGPointSampler.removeOverlapping [⟨0, 0⟩, ⟨1/2, 0⟩, ⟨3, 0⟩]
        ((2 : ℚ)/2), SVGPointSampler.distSq x q < ((2 : ℚ)/2)^2)) :=
  ⟨by norm_num,
    removeOverlapping_spec [⟨0, 0⟩, ⟨1/2, 0⟩, ⟨3, 0⟩] 2 (by norm_num)⟩

/-- An environment for the first `random`-pattern call: 800×600 canvas,
`autoSpeed = 1`, `autoSize = 10` (so `sizeMultiplier = 1`), and both random
draws equal to 1 (the upper end of `Math.random()`'s range). -/
def randEnv : AutoMotion.AutoEnv :=
  { canvasWidth := 800, canvasHeight := 600, autoSpeed := 1, autoSize := 10,
    cosT := 0, sinT := 0, sin2T := 0, rand := fun _ => 1,
    cachedPoints := none }

/-- Claim C3 counterexample: on the first `random` call the code initializes
`randomCurrent` to the canvas center but `randomTarget` to a *random* point
of the bounded rectangle, then immediately eases toward it — so the returned
position is generally not the center.  With `randEnv` at `time = 16` the
call returns `(408.96, 305.88) ≠ (400, 300)` and leaves the target at
`(720, 510) ≠ (400, 300)`. -/
theorem autoPosition_random_first_call_counterexample :
    (AutoMotion.getAutoPosition 16 "random" randEnv
      AutoMotion.initialState).1 ≠ (400, 300) ∧
    (AutoMotion.getAutoPosition 16 "random" randEnv
      AutoMotion.initialState).2.randomTarget ≠ (400, 300) ∧
    AutoMotion.initialState.randomInitialized = false := by
  refine ⟨?_, ?_, rfl⟩ <;>
    · simp [AutoMotion.getAutoPosition, AutoMotion.initialState, randEnv,
        Prod.ext_iff]
      norm_num

/-- Claim C3 (amended): on the first `random` call (uninitialized state,
`randomLastTime = 0`, and `time` within the retarget interval
`3000/autoSpeed`), the current position is initialized to the canvas center
but the target to the random point
`center + (2·rand − 1)·range`; the returned position is the center eased
toward that target by the factor `0.02 + autoSpeed·0.008` — it equals the
center only when the random target coincides with the center. -/
theorem autoPosition_random_first_call (time : ℚ) (env : AutoMotion.AutoEnv)
    (st : AutoMotion.AutoState)
    (hinit : st.randomInitialized = false)
    (hlast : st.randomLastTime = 0)
    (htime : time - 0 ≤ 3000 / env.autoSpeed) :
    (AutoMotion.getAutoPosition time "random" env st).1 =
      (env.canvasWidth / 2 + (env.rand 0 * 2 - 1) *
        (env.canvasWidth * (4/10) * (env.autoSize * (1/10))) *
        ((2/100) + env.autoSpeed * (8/1000)),
       env.canvasHeight / 2 + (env.rand 1 * 2 - 1) *
        (env.canvasHeight * (35/100) * (env.autoSize * (1/10))) *
        ((2/100) + env.autoSpeed * (8/1000))) ∧
    (AutoMotion.getAutoPosition time "random" env st).2.randomTarget =
      (env.canvasWidth / 2 + (env.rand 0 * 2 - 1) *
        (env.canvasWidth * (4/10) * (env.autoSize * (1/10))),
       env.canvasHeight / 2 + (env.rand 1 * 2 - 1) *
        (env.canvasHeight * (35/100) * (env.autoSize * (1/10)))) := by
  have hnot : ¬ (3000 / env.autoSpeed < time) := by
    rw [not_lt]
    linarith [htime]
  constructor
  · simp [AutoMotion.getAutoPosition, hinit, hlast, Prod.ext_iff]
    split_ifs with hcond
    constructor <;> (dsimp only; try ring)
  · simp [AutoMotion.getAutoPosition, hinit, hlast, Prod.ext_iff]
    split_ifs with hcond
    constructor <;> (dsimp only; try ring)

/-- Witness for the amended **C3**: `randEnv` at `time = 16` — the first
call returns `(400 + 320·0.028, 300 + 210·0.028) = (408.96, 305.88)` and
sets the target to `(720, 510)`. -/
theorem autoPosition_random_first_call_witness :
    (AutoMotion.getAutoPosition 16 "random" randEnv
      AutoMotion.initialState).1 = (10224/25, 7647/25) ∧
    (AutoMotion.getAutoPosition 16 "random" randEnv
      AutoMotion.initialState).2.randomTarget = (720, 510) := by
  obtain ⟨h1, h2⟩ := autoPosition_random_first_call 16 randEnv
    AutoMotion.initialState rfl rfl (by norm_num [randEnv])
  constructor
  · rw [h1]
    norm_num [randEnv]
  · rw [h2]
    norm_num [randEnv]
